import Mathlib

/-!
A shallow embedding of the raptor-js/cors middleware (`src/cors.ts`,
`src/helper.ts`, `src/config.ts`) in Lean 4, together with proofs about it.

The middleware inspects the request's `Origin` header and method, mutates the
response's header collection, and either short-circuits preflight `OPTIONS`
requests with a 204 response or delegates to the `next` continuation.
-/

namespace Raptor

/-- ASCII lower-casing of a character code (used to model the case-insensitive
name comparison of HTTP header collections). -/
def lowerCode (n : Nat) : Nat := if 65 ≤ n ∧ n ≤ 90 then n + 32 else n

/-- Case-insensitive comparison key of a header name. -/
def lkey (s : String) : List Nat := s.data.map (fun c => lowerCode c.toNat)

/-- Case-insensitive equality of header names, as in the JS `Headers` class. -/
def lowerEq (a b : String) : Bool := lkey a == lkey b

/-- A header collection: an ordered list of name/value entries, queried and
updated case-insensitively (the `Headers` objects of `context.request` and
`context.response`). -/
abbrev Headers := List (String × String)

/-- `headers.get(name)`: the value of the first entry whose name matches
case-insensitively, or `none` when the header is absent. -/
def hget (hs : Headers) (name : String) : Option String :=
  (hs.find? (fun p => lowerEq p.1 name)).map Prod.snd

/-- `headers.set(name, value)`: overwrite the value of the entries matching
`name` case-insensitively, or append a new entry when none matches. -/
def hset (hs : Headers) (name value : String) : Headers :=
  if hs.any (fun p => lowerEq p.1 name) then
    hs.map (fun p => if lowerEq p.1 name then (p.1, value) else p)
  else
    hs ++ [(name, value)]

/-- The shapes the `origin` field of `Config` can take in `src/config.ts`
(`string | string[] | ((origin: string) => boolean)`); an absent/`undefined`
field is `Option.none` one level up. -/
inductive OriginShape where
  | str (s : String)
  | list (l : List String)
  | pred (p : String → Bool)

/-- The `Config` interface of `src/config.ts`: every field is optional
(`none` models an absent/`undefined` field). `HttpMethod` enum members are
modelled by their method strings. -/
structure Config where
  origin : Option OriginShape := none
  methods : Option (List String) := none
  headers : Option (List String) := none
  maxAge : Option String := none
  credentials : Option Bool := none
  exposeHeaders : Option (List String) := none

/-- JS truthiness test of a `string | null` value: `null` and `""` are falsy. -/
def strFalsy (o : Option String) : Bool :=
  match o with
  | none => true
  | some s => s == ""

/-- `Cors.getAllowedOrigin(requestOrigin)`. The second component counts how
often a user-supplied origin predicate is invoked (the source evaluates
`origin(requestOrigin)` exactly once, in its function branch). The branches
follow the source order: the `!origin` falsy check (catching an absent origin
and the empty string) first, then the string, array and function branches. -/
def getAllowedOrigin (config : Config) (requestOrigin : Option String) :
    Option String × Nat :=
  match config.origin with
  | none => (some "*", 0)
  | some (OriginShape.str s) =>
      if s == "" then (some "*", 0) else (some s, 0)
  | some (OriginShape.list l) =>
      if strFalsy requestOrigin then (none, 0)
      else if l.contains (requestOrigin.getD "") then (requestOrigin, 0)
      else (none, 0)
  | some (OriginShape.pred p) =>
      if strFalsy requestOrigin then (none, 0)
      else if p (requestOrigin.getD "") then (requestOrigin, 1)
      else (none, 1)

/-- The part of the request context the middleware reads: the method string and
the request header collection (only `headers.get("Origin")` is consulted). -/
structure Request where
  method : String
  headers : Headers

/-- The value `handleCors` returns: either the terminal preflight response
(`new Response(null, { status: 204, headers })`) or the value of `next()`. -/
inductive HandleResult (α : Type) where
  | preflight (status : Nat) (body : Option String) (headers : Headers)
  | nextResult (a : α)
deriving DecidableEq

/-- Everything observable about one `handleCors` call: the response header
collection after the call, the returned value, and how often the origin
predicate and the `next` continuation were invoked. -/
structure ApplyOutcome (α : Type) where
  headers : Headers
  result : HandleResult α
  predCalls : Nat
  nextCalls : Nat
deriving DecidableEq

/-- The `if (allowedOrigin) { ... }` block of `handleCors`: set
`Access-Control-Allow-Origin`, and `Access-Control-Allow-Credentials` when
credentials are enabled and the allowed origin is not the wildcard. -/
def setOriginHeaders (config : Config) (allowedOrigin : Option String)
    (resp : Headers) : Headers :=
  match allowedOrigin with
  | none => resp
  | some ao =>
      if ao == "" then resp
      else
        let r := hset resp "Access-Control-Allow-Origin" ao
        if config.credentials == some true && ao != "*" then
          hset r "Access-Control-Allow-Credentials" "true"
        else r

/-- One `if (list && list.length > 0) headers.set(name, list.join(", "))`
block of `handleCors` (used for methods, headers and exposeHeaders). -/
def setListHeader (resp : Headers) (name : String)
    (value : Option (List String)) : Headers :=
  match value with
  | none => resp
  | some vs =>
      if vs.length > 0 then hset resp name (String.intercalate ", " vs)
      else resp

/-- The `if (this.config.maxAge) headers.set("Access-Control-Max-Age", ...)`
block of `handleCors` (`maxAge` is truthy iff present and non-empty). -/
def setMaxAge (resp : Headers) (value : Option String) : Headers :=
  match value with
  | none => resp
  | some s => if s == "" then resp else hset resp "Access-Control-Max-Age" s

/-- The header-mutation part of `Cors.handleCors` (every step before the
method branch), applied in source order: origin/credentials, then methods,
headers, max-age and expose-headers. The second component is the origin
predicate invocation count. -/
def corsHeaders (config : Config) (requestOrigin : Option String)
    (resp : Headers) : Headers × Nat :=
  (setListHeader
    (setMaxAge
      (setListHeader
        (setListHeader
          (setOriginHeaders config (getAllowedOrigin config requestOrigin).1
            resp)
          "Access-Control-Allow-Methods" config.methods)
        "Access-Control-Allow-Headers" config.headers)
      config.maxAge)
    "Access-Control-Expose-Headers" config.exposeHeaders,
   (getAllowedOrigin config requestOrigin).2)

/-- `Cors.handleCors(context, next)`: read the request origin, mutate the
response headers, then either return the terminal 204 preflight response
(for a method exactly equal to `"OPTIONS"`) or return `next()`. -/
def handleCors {α : Type} (config : Config) (request : Request)
    (resp : Headers) (next : Unit → α) : ApplyOutcome α :=
  let r := corsHeaders config (hget request.headers "Origin") resp
  if request.method = "OPTIONS" then
    { headers := r.1, result := HandleResult.preflight 204 none r.1,
      predCalls := r.2, nextCalls := 0 }
  else
    { headers := r.1, result := HandleResult.nextResult (next ()),
      predCalls := r.2, nextCalls := 1 }

/-- `Cors.initialiseDefaultConfig()`. -/
def initialiseDefaultConfig : Config :=
  { origin := some (OriginShape.str "*")
    methods := some ["GET", "POST", "PUT", "PATCH", "DELETE", "OPTIONS",
      "TRACE"]
    headers := some ["Content-Type", "Authorization"]
    maxAge := some "86400"
    credentials := some false
    exposeHeaders := some [] }

/-- The `Cors` constructor: `{ ...this.initialiseDefaultConfig(), ...config }`,
a shallow merge in which a field present in `config` overrides the default and
an absent field keeps its default. -/
def mkCors (config : Option Config) : Config :=
  match config with
  | none => initialiseDefaultConfig
  | some c =>
      { origin := c.origin.or initialiseDefaultConfig.origin
        methods := c.methods.or initialiseDefaultConfig.methods
        headers := c.headers.or initialiseDefaultConfig.headers
        maxAge := c.maxAge.or initialiseDefaultConfig.maxAge
        credentials := c.credentials.or initialiseDefaultConfig.credentials
        exposeHeaders :=
          c.exposeHeaders.or initialiseDefaultConfig.exposeHeaders }

/-- The `handle` getter: a middleware closure that forwards its context and
continuation to `handleCors`. -/
def handle {α : Type} (config : Config) :
    Request → Headers → (Unit → α) → ApplyOutcome α :=
  fun request resp next => handleCors config request resp next

/-- The `cors(config?)` helper of `src/helper.ts`: construct a `Cors`
instance from the configuration and return its bound `handle` middleware. -/
def cors {α : Type} (config : Option Config) :
    Request → Headers → (Unit → α) → ApplyOutcome α :=
  handle (mkCors config)

/-! ### Lemmas about the header collection -/

theorem lowerEq_refl (a : String) : lowerEq a a = true := by
  simp [lowerEq]

theorem lowerEq_eq_true_iff (a b : String) :
    lowerEq a b = true ↔ lkey a = lkey b := by
  simp [lowerEq]

theorem lowerEq_eq_false (a b : String) (h : lkey a ≠ lkey b) :
    lowerEq a b = false := by
  simp [lowerEq, h]

theorem lowerEq_congr (n m : String) (h : lkey m = lkey n)
    (p : String × String) : lowerEq p.1 m = lowerEq p.1 n := by
  unfold lowerEq
  rw [h]

/-- `find?` over the value-replacing map of `hset` commutes with the map,
because replacement keeps every entry's name. -/
theorem find_replace (hs : Headers) (n v m : String) :
    List.find? (fun p => lowerEq p.1 m)
        (hs.map (fun p => if lowerEq p.1 n then (p.1, v) else p))
      = (List.find? (fun p => lowerEq p.1 m) hs).map
          (fun p => if lowerEq p.1 n then (p.1, v) else p) := by
  induction hs with
  | nil => rfl
  | cons head tail ih =>
    simp only [List.map_cons, List.find?_cons]
    by_cases hkn : lowerEq head.1 n = true
    · by_cases hkm : lowerEq head.1 m = true
      · simp [hkn, hkm]
      · simp only [Bool.not_eq_true] at hkm
        simp [hkn, hkm, ih]
    · simp only [Bool.not_eq_true] at hkn
      by_cases hkm : lowerEq head.1 m = true
      · simp [hkn, hkm]
      · simp only [Bool.not_eq_true] at hkm
        simp [hkn, hkm, ih]

theorem hget_hset_same (hs : Headers) (n v m : String) (h : lkey m = lkey n) :
    hget (hset hs n v) m = some v := by
  have hpred : (fun p : String × String => lowerEq p.1 m)
      = (fun p : String × String => lowerEq p.1 n) := by
    funext p
    exact lowerEq_congr n m h p
  unfold hset hget
  by_cases hany : hs.any (fun p => lowerEq p.1 n) = true
  · simp only [hany, if_true]
    rw [find_replace, hpred]
    obtain ⟨x, hx, hpx⟩ := List.any_eq_true.mp hany
    have hsome : (List.find? (fun p : String × String => lowerEq p.1 n)
        hs).isSome := List.find?_isSome.mpr ⟨x, hx, hpx⟩
    obtain ⟨y, hy⟩ := Option.isSome_iff_exists.mp hsome
    have hyn : lowerEq y.1 n = true := by simpa using List.find?_some hy
    simp [hy, hyn]
  · simp only [Bool.not_eq_true] at hany
    simp only [hany, Bool.false_eq_true, if_false]
    rw [List.find?_append, hpred]
    have hnone : List.find? (fun p : String × String => lowerEq p.1 n) hs
        = none := by
      rw [List.find?_eq_none]
      intro x hx
      simp only [List.any_eq_false] at hany
      simp [hany x hx]
    simp [hnone, List.find?, lowerEq_refl]

theorem hget_hset_other (hs : Headers) (n v m : String)
    (h : lkey m ≠ lkey n) : hget (hset hs n v) m = hget hs m := by
  unfold hset hget
  by_cases hany : hs.any (fun p => lowerEq p.1 n) = true
  · simp only [hany, if_true]
    rw [find_replace]
    cases hfind : List.find? (fun p : String × String => lowerEq p.1 m) hs
      with
    | none => simp
    | some y =>
      have hym : lowerEq y.1 m = true := by simpa using List.find?_some hfind
      have hym' : lkey y.1 = lkey m := (lowerEq_eq_true_iff _ _).mp hym
      have hyn : lowerEq y.1 n = false := by
        apply lowerEq_eq_false
        rw [hym']
        exact h
      simp [hyn]
  · simp only [Bool.not_eq_true] at hany
    simp only [hany, Bool.false_eq_true, if_false]
    rw [List.find?_append]
    have hnm : lowerEq n m = false := by
      apply lowerEq_eq_false
      intro hc
      exact h hc.symm
    simp [List.find?, hnm]

theorem hget_hset_isSome (hs : Headers) (n v m : String)
    (h : (hget hs m).isSome) : (hget (hset hs n v) m).isSome := by
  by_cases hmn : lkey m = lkey n
  · rw [hget_hset_same hs n v m hmn]
    rfl
  · rw [hget_hset_other hs n v m hmn]
    exact h

/-! ### Lemmas about the individual header-setting steps -/

theorem hget_setListHeader_other (resp : Headers) (name : String)
    (value : Option (List String)) (m : String) (h : lkey m ≠ lkey name) :
    hget (setListHeader resp name value) m = hget resp m := by
  unfold setListHeader
  cases value with
  | none => rfl
  | some vs =>
      by_cases hl : vs.length > 0
      · simp [hl, hget_hset_other _ _ _ _ h]
      · simp [hl]

theorem hget_setListHeader_self (resp : Headers) (name : String)
    (value : Option (List String)) (m : String) (h : lkey m = lkey name) :
    hget (setListHeader resp name value) m =
      (match value with
       | some vs =>
           if vs.length > 0 then some (String.intercalate ", " vs)
           else hget resp m
       | none => hget resp m) := by
  unfold setListHeader
  cases value with
  | none => rfl
  | some vs =>
      by_cases hl : vs.length > 0
      · simp [hl, hget_hset_same _ _ _ _ h]
      · simp [hl]

theorem isSome_setListHeader (resp : Headers) (name : String)
    (value : Option (List String)) (m : String)
    (h : (hget resp m).isSome) :
    (hget (setListHeader resp name value) m).isSome := by
  unfold setListHeader
  cases value with
  | none => exact h
  | some vs =>
      by_cases hl : vs.length > 0
      · simp only [hl, if_true]
        exact hget_hset_isSome _ _ _ _ h
      · simp only [hl, if_false]
        exact h

theorem hget_setMaxAge_other (resp : Headers) (value : Option String)
    (m : String) (h : lkey m ≠ lkey "Access-Control-Max-Age") :
    hget (setMaxAge resp value) m = hget resp m := by
  unfold setMaxAge
  cases value with
  | none => rfl
  | some s =>
      by_cases hs : s = ""
      · simp [hs]
      · simp [hs, hget_hset_other _ _ _ _ h]

theorem hget_setMaxAge_self (resp : Headers) (value : Option String)
    (m : String) (h : lkey m = lkey "Access-Control-Max-Age") :
    hget (setMaxAge resp value) m =
      (match value with
       | some s => if s = "" then hget resp m else some s
       | none => hget resp m) := by
  unfold setMaxAge
  cases value with
  | none => rfl
  | some s =>
      by_cases hs : s = ""
      · simp [hs]
      · simp [hs, hget_hset_same _ _ _ _ h]

theorem isSome_setMaxAge (resp : Headers) (value : Option String) (m : String)
    (h : (hget resp m).isSome) : (hget (setMaxAge resp value) m).isSome := by
  unfold setMaxAge
  cases value with
  | none => exact h
  | some s =>
      by_cases hs : (s == "") = true
      · simp only [hs, if_true]
        exact h
      · simp only [hs, if_false]
        exact hget_hset_isSome _ _ _ _ h

theorem hget_setOriginHeaders_other (config : Config)
    (ao : Option String) (resp : Headers) (m : String)
    (h1 : lkey m ≠ lkey "Access-Control-Allow-Origin")
    (h2 : lkey m ≠ lkey "Access-Control-Allow-Credentials") :
    hget (setOriginHeaders config ao resp) m = hget resp m := by
  unfold setOriginHeaders
  cases ao with
  | none => rfl
  | some s =>
      by_cases hs : s = ""
      · simp [hs]
      · by_cases hc : (config.credentials == some true && s != "*") = true
        · simp [hs, hc, hget_hset_other _ _ _ _ h2,
            hget_hset_other _ _ _ _ h1]
        · simp [hs, hc, hget_hset_other _ _ _ _ h1]

theorem hget_setOriginHeaders_origin (config : Config)
    (ao : Option String) (resp : Headers) :
    hget (setOriginHeaders config ao resp) "Access-Control-Allow-Origin" =
      (match ao with
       | some s =>
           if s = "" then hget resp "Access-Control-Allow-Origin" else some s
       | none => hget resp "Access-Control-Allow-Origin") := by
  unfold setOriginHeaders
  cases ao with
  | none => rfl
  | some s =>
      by_cases hs : s = ""
      · simp [hs]
      · have hd : lkey "Access-Control-Allow-Origin"
            ≠ lkey "Access-Control-Allow-Credentials" := by decide
        by_cases hc : (config.credentials == some true && s != "*") = true
        · simp [hs, hc, hget_hset_other _ _ _ _ hd,
            hget_hset_same _ _ _ _ rfl]
        · simp [hs, hc, hget_hset_same _ _ _ _ rfl]

theorem hget_setOriginHeaders_cred (config : Config)
    (ao : Option String) (resp : Headers) :
    hget (setOriginHeaders config ao resp)
        "Access-Control-Allow-Credentials" =
      (match ao with
       | some s =>
           if s = "" then hget resp "Access-Control-Allow-Credentials"
           else if config.credentials == some true && s != "*" then
             some "true"
           else hget resp "Access-Control-Allow-Credentials"
       | none => hget resp "Access-Control-Allow-Credentials") := by
  unfold setOriginHeaders
  cases ao with
  | none => rfl
  | some s =>
      by_cases hs : s = ""
      · simp [hs]
      · have hd : lkey "Access-Control-Allow-Credentials"
            ≠ lkey "Access-Control-Allow-Origin" := by decide
        by_cases hc : (config.credentials == some true && s != "*") = true
        · simp [hs, hc, hget_hset_same _ _ _ _ rfl]
        · simp [hs, hc, hget_hset_other _ _ _ _ hd]

theorem isSome_setOriginHeaders (config : Config) (ao : Option String)
    (resp : Headers) (m : String) (h : (hget resp m).isSome) :
    (hget (setOriginHeaders config ao resp) m).isSome := by
  unfold setOriginHeaders
  cases ao with
  | none => exact h
  | some s =>
      by_cases hs : (s == "") = true
      · simp only [hs, if_true]
        exact h
      · simp only [hs, if_false]
        by_cases hc : (config.credentials == some true && s != "*") = true
        · simp only [hc, if_true]
          exact hget_hset_isSome _ _ _ _ (hget_hset_isSome _ _ _ _ h)
        · simp only [hc, if_false]
          exact hget_hset_isSome _ _ _ _ h

/-- The allowed origin computed by `getAllowedOrigin` is never the empty
string: the falsy checks on `origin` and `requestOrigin` rule it out. -/
theorem getAllowedOrigin_ne_empty (config : Config) (ro : Option String)
    (h : (getAllowedOrigin config ro).1 = some "") : False := by
  unfold getAllowedOrigin at h
  cases hc : config.origin with
  | none =>
      rw [hc] at h
      simp at h
  | some shape =>
      rw [hc] at h
      cases shape with
      | str s =>
          by_cases hs : s = ""
          · simp [hs] at h
          · simp [hs] at h
      | list l =>
          by_cases hf : strFalsy ro = true
          · simp [hf] at h
          · by_cases hm : ro.getD "" ∈ l
            · simp [hf, hm] at h
              rw [h] at hf
              simp [strFalsy] at hf
            · simp [hf, hm] at h
      | pred p =>
          by_cases hf : strFalsy ro = true
          · simp [hf] at h
          · by_cases hm : p (ro.getD "") = true
            · simp [hf, hm] at h
              rw [h] at hf
              simp [strFalsy] at hf
            · simp [hf, hm] at h

/-! ### Lemmas about `corsHeaders` and `handleCors` as a whole -/

theorem handleCors_headers {α : Type} (config : Config) (request : Request)
    (resp : Headers) (next : Unit → α) :
    (handleCors config request resp next).headers =
      (corsHeaders config (hget request.headers "Origin") resp).1 := by
  unfold handleCors
  by_cases hm : request.method = "OPTIONS" <;> simp [hm]

theorem handleCors_predCalls {α : Type} (config : Config) (request : Request)
    (resp : Headers) (next : Unit → α) :
    (handleCors config request resp next).predCalls =
      (getAllowedOrigin config (hget request.headers "Origin")).2 := by
  unfold handleCors
  by_cases hm : request.method = "OPTIONS" <;> simp [hm, corsHeaders]

theorem corsHeaders_origin (config : Config) (ro : Option String)
    (resp : Headers) :
    hget (corsHeaders config ro resp).1 "Access-Control-Allow-Origin" =
      (match (getAllowedOrigin config ro).1 with
       | some s =>
           if s = "" then hget resp "Access-Control-Allow-Origin" else some s
       | none => hget resp "Access-Control-Allow-Origin") := by
  have h1 : lkey "Access-Control-Allow-Origin"
      ≠ lkey "Access-Control-Expose-Headers" := by decide
  have h2 : lkey "Access-Control-Allow-Origin"
      ≠ lkey "Access-Control-Max-Age" := by decide
  have h3 : lkey "Access-Control-Allow-Origin"
      ≠ lkey "Access-Control-Allow-Headers" := by decide
  have h4 : lkey "Access-Control-Allow-Origin"
      ≠ lkey "Access-Control-Allow-Methods" := by decide
  unfold corsHeaders
  dsimp only
  rw [hget_setListHeader_other _ _ _ _ h1, hget_setMaxAge_other _ _ _ h2,
    hget_setListHeader_other _ _ _ _ h3, hget_setListHeader_other _ _ _ _ h4,
    hget_setOriginHeaders_origin]

theorem corsHeaders_cred (config : Config) (ro : Option String)
    (resp : Headers) :
    hget (corsHeaders config ro resp).1 "Access-Control-Allow-Credentials" =
      (match (getAllowedOrigin config ro).1 with
       | some s =>
           if s = "" then hget resp "Access-Control-Allow-Credentials"
           else if config.credentials == some true && s != "*" then
             some "true"
           else hget resp "Access-Control-Allow-Credentials"
       | none => hget resp "Access-Control-Allow-Credentials") := by
  have h1 : lkey "Access-Control-Allow-Credentials"
      ≠ lkey "Access-Control-Expose-Headers" := by decide
  have h2 : lkey "Access-Control-Allow-Credentials"
      ≠ lkey "Access-Control-Max-Age" := by decide
  have h3 : lkey "Access-Control-Allow-Credentials"
      ≠ lkey "Access-Control-Allow-Headers" := by decide
  have h4 : lkey "Access-Control-Allow-Credentials"
      ≠ lkey "Access-Control-Allow-Methods" := by decide
  unfold corsHeaders
  dsimp only
  rw [hget_setListHeader_other _ _ _ _ h1, hget_setMaxAge_other _ _ _ h2,
    hget_setListHeader_other _ _ _ _ h3, hget_setListHeader_other _ _ _ _ h4,
    hget_setOriginHeaders_cred]

theorem corsHeaders_methods (config : Config) (ro : Option String)
    (resp : Headers) :
    hget (corsHeaders config ro resp).1 "Access-Control-Allow-Methods" =
      (match config.methods with
       | some vs =>
           if vs.length > 0 then some (String.intercalate ", " vs)
           else hget resp "Access-Control-Allow-Methods"
       | none => hget resp "Access-Control-Allow-Methods") := by
  have h1 : lkey "Access-Control-Allow-Methods"
      ≠ lkey "Access-Control-Expose-Headers" := by decide
  have h2 : lkey "Access-Control-Allow-Methods"
      ≠ lkey "Access-Control-Max-Age" := by decide
  have h3 : lkey "Access-Control-Allow-Methods"
      ≠ lkey "Access-Control-Allow-Headers" := by decide
  have h5 : lkey "Access-Control-Allow-Methods"
      ≠ lkey "Access-Control-Allow-Origin" := by decide
  have h6 : lkey "Access-Control-Allow-Methods"
      ≠ lkey "Access-Control-Allow-Credentials" := by decide
  have hin : hget (setOriginHeaders config (getAllowedOrigin config ro).1
      resp) "Access-Control-Allow-Methods"
      = hget resp "Access-Control-Allow-Methods" :=
    hget_setOriginHeaders_other _ _ _ _ h5 h6
  unfold corsHeaders
  dsimp only
  rw [hget_setListHeader_other _ _ _ _ h1, hget_setMaxAge_other _ _ _ h2,
    hget_setListHeader_other _ _ _ _ h3,
    hget_setListHeader_self _ _ _ _ rfl, hin]

theorem corsHeaders_hdrs (config : Config) (ro : Option String)
    (resp : Headers) :
    hget (corsHeaders config ro resp).1 "Access-Control-Allow-Headers" =
      (match config.headers with
       | some vs =>
           if vs.length > 0 then some (String.intercalate ", " vs)
           else hget resp "Access-Control-Allow-Headers"
       | none => hget resp "Access-Control-Allow-Headers") := by
  have h1 : lkey "Access-Control-Allow-Headers"
      ≠ lkey "Access-Control-Expose-Headers" := by decide
  have h2 : lkey "Access-Control-Allow-Headers"
      ≠ lkey "Access-Control-Max-Age" := by decide
  have h4 : lkey "Access-Control-Allow-Headers"
      ≠ lkey "Access-Control-Allow-Methods" := by decide
  have h5 : lkey "Access-Control-Allow-Headers"
      ≠ lkey "Access-Control-Allow-Origin" := by decide
  have h6 : lkey "Access-Control-Allow-Headers"
      ≠ lkey "Access-Control-Allow-Credentials" := by decide
  have hin : hget (setListHeader
      (setOriginHeaders config (getAllowedOrigin config ro).1 resp)
      "Access-Control-Allow-Methods" config.methods)
      "Access-Control-Allow-Headers"
      = hget resp "Access-Control-Allow-Headers" := by
    rw [hget_setListHeader_other _ _ _ _ h4]
    exact hget_setOriginHeaders_other _ _ _ _ h5 h6
  unfold corsHeaders
  dsimp only
  rw [hget_setListHeader_other _ _ _ _ h1, hget_setMaxAge_other _ _ _ h2,
    hget_setListHeader_self _ _ _ _ rfl, hin]

theorem corsHeaders_maxage (config : Config) (ro : Option String)
    (resp : Headers) :
    hget (corsHeaders config ro resp).1 "Access-Control-Max-Age" =
      (match config.maxAge with
       | some s => if s = "" then hget resp "Access-Control-Max-Age" else some s
       | none => hget resp "Access-Control-Max-Age") := by
  have h1 : lkey "Access-Control-Max-Age"
      ≠ lkey "Access-Control-Expose-Headers" := by decide
  have h3 : lkey "Access-Control-Max-Age"
      ≠ lkey "Access-Control-Allow-Headers" := by decide
  have h4 : lkey "Access-Control-Max-Age"
      ≠ lkey "Access-Control-Allow-Methods" := by decide
  have h5 : lkey "Access-Control-Max-Age"
      ≠ lkey "Access-Control-Allow-Origin" := by decide
  have h6 : lkey "Access-Control-Max-Age"
      ≠ lkey "Access-Control-Allow-Credentials" := by decide
  have hin : hget (setListHeader (setListHeader
      (setOriginHeaders config (getAllowedOrigin config ro).1 resp)
      "Access-Control-Allow-Methods" config.methods)
      "Access-Control-Allow-Headers" config.headers)
      "Access-Control-Max-Age" = hget resp "Access-Control-Max-Age" := by
    rw [hget_setListHeader_other _ _ _ _ h3,
      hget_setListHeader_other _ _ _ _ h4]
    exact hget_setOriginHeaders_other _ _ _ _ h5 h6
  unfold corsHeaders
  dsimp only
  rw [hget_setListHeader_other _ _ _ _ h1, hget_setMaxAge_self _ _ _ rfl, hin]

theorem corsHeaders_expose (config : Config) (ro : Option String)
    (resp : Headers) :
    hget (corsHeaders config ro resp).1 "Access-Control-Expose-Headers" =
      (match config.exposeHeaders with
       | some vs =>
           if vs.length > 0 then some (String.intercalate ", " vs)
           else hget resp "Access-Control-Expose-Headers"
       | none => hget resp "Access-Control-Expose-Headers") := by
  have h2 : lkey "Access-Control-Expose-Headers"
      ≠ lkey "Access-Control-Max-Age" := by decide
  have h3 : lkey "Access-Control-Expose-Headers"
      ≠ lkey "Access-Control-Allow-Headers" := by decide
  have h4 : lkey "Access-Control-Expose-Headers"
      ≠ lkey "Access-Control-Allow-Methods" := by decide
  have h5 : lkey "Access-Control-Expose-Headers"
      ≠ lkey "Access-Control-Allow-Origin" := by decide
  have h6 : lkey "Access-Control-Expose-Headers"
      ≠ lkey "Access-Control-Allow-Credentials" := by decide
  have hin : hget (setMaxAge (setListHeader (setListHeader
      (setOriginHeaders config (getAllowedOrigin config ro).1 resp)
      "Access-Control-Allow-Methods" config.methods)
      "Access-Control-Allow-Headers" config.headers) config.maxAge)
      "Access-Control-Expose-Headers"
      = hget resp "Access-Control-Expose-Headers" := by
    rw [hget_setMaxAge_other _ _ _ h2, hget_setListHeader_other _ _ _ _ h3,
      hget_setListHeader_other _ _ _ _ h4]
    exact hget_setOriginHeaders_other _ _ _ _ h5 h6
  unfold corsHeaders
  dsimp only
  rw [hget_setListHeader_self _ _ _ _ rfl, hin]

/-- Querying any name whose case-insensitive key differs from all six CORS
header names is unaffected by `corsHeaders`. -/
theorem corsHeaders_other (config : Config) (ro : Option String)
    (resp : Headers) (m : String)
    (h1 : lkey m ≠ lkey "Access-Control-Allow-Origin")
    (h2 : lkey m ≠ lkey "Access-Control-Allow-Credentials")
    (h3 : lkey m ≠ lkey "Access-Control-Allow-Methods")
    (h4 : lkey m ≠ lkey "Access-Control-Allow-Headers")
    (h5 : lkey m ≠ lkey "Access-Control-Max-Age")
    (h6 : lkey m ≠ lkey "Access-Control-Expose-Headers") :
    hget (corsHeaders config ro resp).1 m = hget resp m := by
  unfold corsHeaders
  dsimp only
  rw [hget_setListHeader_other _ _ _ _ h6, hget_setMaxAge_other _ _ _ h5,
    hget_setListHeader_other _ _ _ _ h4, hget_setListHeader_other _ _ _ _ h3]
  exact hget_setOriginHeaders_other _ _ _ _ h1 h2

/-- `corsHeaders` never removes a header: any name present before is present
after. -/
theorem corsHeaders_isSome (config : Config) (ro : Option String)
    (resp : Headers) (m : String) (h : (hget resp m).isSome) :
    (hget (corsHeaders config ro resp).1 m).isSome := by
  unfold corsHeaders
  dsimp only
  exact isSome_setListHeader _ _ _ _ (isSome_setMaxAge _ _ _
    (isSome_setListHeader _ _ _ _ (isSome_setListHeader _ _ _ _
      (isSome_setOriginHeaders _ _ _ _ h))))

/-- `getAllowedOrigin` treats a present-but-empty request origin exactly like
an absent one, because the source tests `!requestOrigin` (falsiness). -/
theorem getAllowedOrigin_empty_origin (config : Config) :
    getAllowedOrigin config (some "") = getAllowedOrigin config none := by
  unfold getAllowedOrigin
  cases config.origin with
  | none => rfl
  | some shape =>
      cases shape with
      | str s => rfl
      | list l => simp [strFalsy]
      | pred p => simp [strFalsy]

/-! ### Claim theorems -/

/-- Claim C1, counterexample: with `origin = [""]` and a request whose
`Origin` header is present and equal to `""` (a member of the set), the claim
as stated predicts allowed origin `""` and the header set to `""`; the code
resolves no allowed origin and leaves the header unset. -/
theorem c1_counterexample :
    ("" ∈ [""])
  ∧ hget [("Origin", "")] "Origin" = some ""
  ∧ (getAllowedOrigin { origin := some (OriginShape.list [""]) }
      (some "")).1 = none
  ∧ hget (handleCors { origin := some (OriginShape.list [""]) }
        ⟨"GET", [("Origin", "")]⟩ [] (fun _ => (0 : Nat))).headers
      "Access-Control-Allow-Origin" = none := by
  exact ⟨by decide, by decide, by decide, by decide⟩

/-- Claim C1 as amended: the resolution table of `apply`, with a present
`Origin` header required to be non-empty in the set and predicate rows (an
empty `Origin` value is falsy and behaves like an absent header). An
absent/falsy `origin` yields the wildcard; a (non-empty) literal yields
itself unconditionally; a set yields a present non-empty member `Origin` and
otherwise none; a predicate yields a present non-empty accepted `Origin` and
otherwise none. A non-none allowed origin is written to
`Access-Control-Allow-Origin`; a none one leaves that header unchanged. -/
theorem c1_origin_resolution {α : Type} (config : Config) (request : Request)
    (resp : Headers) (next : Unit → α) (ro : Option String)
    (hro : hget request.headers "Origin" = ro) :
    (config.origin = none → (getAllowedOrigin config ro).1 = some "*")
  ∧ (∀ s, config.origin = some (OriginShape.str s) → s = "" →
      (getAllowedOrigin config ro).1 = some "*")
  ∧ (∀ s, config.origin = some (OriginShape.str s) → s ≠ "" →
      (getAllowedOrigin config ro).1 = some s)
  ∧ (∀ l o, config.origin = some (OriginShape.list l) → ro = some o →
      o ≠ "" → o ∈ l → (getAllowedOrigin config ro).1 = some o)
  ∧ (∀ l o, config.origin = some (OriginShape.list l) → ro = some o →
      o ≠ "" → o ∉ l → (getAllowedOrigin config ro).1 = none)
  ∧ (∀ l, config.origin = some (OriginShape.list l) →
      (ro = none ∨ ro = some "") → (getAllowedOrigin config ro).1 = none)
  ∧ (∀ p o, config.origin = some (OriginShape.pred p) → ro = some o →
      o ≠ "" → p o = true → (getAllowedOrigin config ro).1 = some o)
  ∧ (∀ p o, config.origin = some (OriginShape.pred p) → ro = some o →
      o ≠ "" → p o = false → (getAllowedOrigin config ro).1 = none)
  ∧ (∀ p, config.origin = some (OriginShape.pred p) →
      (ro = none ∨ ro = some "") → (getAllowedOrigin config ro).1 = none)
  ∧ (∀ s, (getAllowedOrigin config ro).1 = some s →
      hget (handleCors config request resp next).headers
        "Access-Control-Allow-Origin" = some s)
  ∧ ((getAllowedOrigin config ro).1 = none →
      hget (handleCors config request resp next).headers
        "Access-Control-Allow-Origin"
        = hget resp "Access-Control-Allow-Origin") := by
  refine ⟨?_, ?_, ?_, ?_, ?_, ?_, ?_, ?_, ?_, ?_, ?_⟩
  · intro h
    simp [getAllowedOrigin, h]
  · intro s h hs
    simp [getAllowedOrigin, h, hs]
  · intro s h hs
    simp [getAllowedOrigin, h, hs]
  · intro l o hl ho hne hmem
    subst ho
    simp [getAllowedOrigin, hl, strFalsy, hne, hmem]
  · intro l o hl ho hne hmem
    subst ho
    simp [getAllowedOrigin, hl, strFalsy, hne, hmem]
  · intro l hl ho
    cases ho with
    | inl h =>
        subst h
        simp [getAllowedOrigin, hl, strFalsy]
    | inr h =>
        subst h
        simp [getAllowedOrigin, hl, strFalsy]
  · intro p o hp ho hne hpo
    subst ho
    simp [getAllowedOrigin, hp, strFalsy, hne, hpo]
  · intro p o hp ho hne hpo
    subst ho
    simp [getAllowedOrigin, hp, strFalsy, hne, hpo]
  · intro p hp ho
    cases ho with
    | inl h =>
        subst h
        simp [getAllowedOrigin, hp, strFalsy]
    | inr h =>
        subst h
        simp [getAllowedOrigin, hp, strFalsy]
  · intro s h
    have hne : s ≠ "" := fun he => getAllowedOrigin_ne_empty config ro (he ▸ h)
    rw [handleCors_headers, hro, corsHeaders_origin, h]
    simp [hne]
  · intro h
    rw [handleCors_headers, hro, corsHeaders_origin, h]

/-- Witness for C1: a two-element allow list admits its member and the header
is set to the request origin. -/
theorem c1_witness :
    (getAllowedOrigin { origin := some (OriginShape.list ["https://a.com"]) }
      (some "https://a.com")).1 = some "https://a.com"
  ∧ hget (handleCors { origin := some (OriginShape.list ["https://a.com"]) }
        ⟨"GET", [("Origin", "https://a.com")]⟩ [] (fun _ => (0 : Nat))).headers
      "Access-Control-Allow-Origin" = some "https://a.com" := by
  have h := c1_origin_resolution
    { origin := some (OriginShape.list ["https://a.com"]) }
    (Request.mk "GET" [("Origin", "https://a.com")]) [] (fun _ => (0 : Nat))
    (some "https://a.com") (by decide)
  have hres := h.2.2.2.1 ["https://a.com"] "https://a.com" rfl rfl
    (by decide) (by decide)
  exact ⟨hres, h.2.2.2.2.2.2.2.2.2.1 "https://a.com" hres⟩

/-- Claim C2: `Access-Control-Allow-Credentials` is set to `"true"` iff
credentials are enabled, an allowed origin was resolved, and that origin is
not the wildcard; in every other case the header is left unchanged. -/
theorem c2_credentials {α : Type} (config : Config) (request : Request)
    (resp : Headers) (next : Unit → α) (ro : Option String)
    (hro : hget request.headers "Origin" = ro) :
    ((config.credentials = some true ∧
        ∃ s, (getAllowedOrigin config ro).1 = some s ∧ s ≠ "*") →
      hget (handleCors config request resp next).headers
        "Access-Control-Allow-Credentials" = some "true")
  ∧ (¬(config.credentials = some true ∧
        ∃ s, (getAllowedOrigin config ro).1 = some s ∧ s ≠ "*") →
      hget (handleCors config request resp next).headers
        "Access-Control-Allow-Credentials"
        = hget resp "Access-Control-Allow-Credentials") := by
  constructor
  · rintro ⟨hcred, s, hs, hneq⟩
    have hne : s ≠ "" := fun he => getAllowedOrigin_ne_empty config ro
      (he ▸ hs)
    rw [handleCors_headers, hro, corsHeaders_cred, hs]
    simp [hne, hcred, hneq]
  · intro h
    rw [handleCors_headers, hro, corsHeaders_cred]
    cases hs : (getAllowedOrigin config ro).1 with
    | none => rfl
    | some s =>
        dsimp only
        by_cases he : s = ""
        · rw [if_pos he]
        · rw [if_neg he]
          by_cases hc : (config.credentials == some true && s != "*") = true
          · exfalso
            apply h
            have hand := (Bool.and_eq_true _ _).mp hc
            constructor
            · simpa using hand.1
            · refine ⟨s, hs, ?_⟩
              simpa using hand.2
          · rw [if_neg hc]

/-- Concrete configurations used in witnesses. -/
def cfgLitCred : Config :=
  { origin := some (OriginShape.str "https://e.com"), credentials := some true }

/-- Wildcard origin with credentials enabled. -/
def cfgStarCred : Config :=
  { origin := some (OriginShape.str "*"), credentials := some true }

/-- Witness for C2: a literal non-wildcard origin with credentials enabled
sets the header; a wildcard origin with credentials enabled does not. -/
theorem c2_witness :
    hget (handleCors cfgLitCred ⟨"GET", []⟩ [] (fun _ => (0 : Nat))).headers
      "Access-Control-Allow-Credentials" = some "true"
  ∧ hget (handleCors cfgStarCred ⟨"GET", []⟩ [] (fun _ => (0 : Nat))).headers
      "Access-Control-Allow-Credentials" = none := by
  constructor
  · exact (c2_credentials cfgLitCred ⟨"GET", []⟩ [] (fun _ => (0 : Nat))
      none rfl).1 ⟨rfl, "https://e.com", by decide, by decide⟩
  · refine (c2_credentials cfgStarCred ⟨"GET", []⟩ [] (fun _ => (0 : Nat))
      none rfl).2 ?_
    rintro ⟨-, s, hs, hneq⟩
    simp [getAllowedOrigin, cfgStarCred] at hs
    exact hneq hs.symm

/-- Claim C3: a request whose method is exactly `"OPTIONS"` yields the
terminal 204 empty-body response and never invokes `next`; any other method
invokes `next` exactly once and returns its result unchanged. -/
theorem c3_preflight {α : Type} (config : Config) (request : Request)
    (resp : Headers) (next : Unit → α) :
    (request.method = "OPTIONS" →
        (handleCors config request resp next).result
          = HandleResult.preflight 204 none
              (handleCors config request resp next).headers
      ∧ (handleCors config request resp next).nextCalls = 0)
  ∧ (request.method ≠ "OPTIONS" →
        (handleCors config request resp next).result
          = HandleResult.nextResult (next ())
      ∧ (handleCors config request resp next).nextCalls = 1) := by
  unfold handleCors
  by_cases hm : request.method = "OPTIONS" <;> simp [hm]

/-- Witness for C3: an `OPTIONS` request short-circuits with 204 and does not
call `next`; a `GET` request returns `next()` and calls it once. -/
theorem c3_witness :
    ((handleCors ({} : Config) ⟨"OPTIONS", []⟩ [] (fun _ => (5 : Nat))).result
        = HandleResult.preflight 204 none
            (handleCors ({} : Config) ⟨"OPTIONS", []⟩ []
              (fun _ => (5 : Nat))).headers
      ∧ (handleCors ({} : Config) ⟨"OPTIONS", []⟩ []
          (fun _ => (5 : Nat))).nextCalls = 0)
  ∧ ((handleCors ({} : Config) ⟨"GET", []⟩ [] (fun _ => (5 : Nat))).result
        = HandleResult.nextResult 5
      ∧ (handleCors ({} : Config) ⟨"GET", []⟩ []
          (fun _ => (5 : Nat))).nextCalls = 1) := by
  exact ⟨(c3_preflight ({} : Config) ⟨"OPTIONS", []⟩ []
      (fun _ => (5 : Nat))).1 rfl,
    (c3_preflight ({} : Config) ⟨"GET", []⟩ [] (fun _ => (5 : Nat))).2
      (by decide)⟩

/-- Claim C4, counterexample: the terminal 204 response is built from the
whole mutated response header collection, so a header present on the response
before the call (here `X-Custom`) is carried into the preflight response,
contradicting "nothing else". -/
theorem c4_counterexample :
    (handleCors ({} : Config) ⟨"OPTIONS", []⟩ [("X-Custom", "1")]
        (fun _ => (0 : Nat))).result
      = HandleResult.preflight 204 none
          [("X-Custom", "1"), ("Access-Control-Allow-Origin", "*")]
  ∧ hget [("X-Custom", "1"), ("Access-Control-Allow-Origin", "*")]
      "X-Custom" = some "1" := by
  exact ⟨by decide, by decide⟩

/-- Claim C4 as amended: for every `OPTIONS` request the terminal 204
empty-body response carries exactly the response header collection as mutated
by steps 1-5 — the accumulated CORS headers together with any headers already
present on the response before the call (which are preserved). -/
theorem c4_preflight_headers {α : Type} (config : Config) (request : Request)
    (resp : Headers) (next : Unit → α) (h : request.method = "OPTIONS") :
    (handleCors config request resp next).result
      = HandleResult.preflight 204 none
          (handleCors config request resp next).headers
  ∧ (handleCors config request resp next).headers
      = (corsHeaders config (hget request.headers "Origin") resp).1
  ∧ (∀ m, (hget resp m).isSome →
      (hget (handleCors config request resp next).headers m).isSome) := by
  refine ⟨?_, handleCors_headers config request resp next, ?_⟩
  · unfold handleCors
    simp [h]
  · intro m hm
    rw [handleCors_headers]
    exact corsHeaders_isSome _ _ _ _ hm

/-- Witness for C4: an `OPTIONS` call with a pre-existing `X-Init` header
returns the 204 response carrying the mutated collection, `X-Init` included. -/
theorem c4_witness :
    (handleCors ({} : Config) ⟨"OPTIONS", []⟩ [("X-Init", "v")]
        (fun _ => (0 : Nat))).result
      = HandleResult.preflight 204 none
          (handleCors ({} : Config) ⟨"OPTIONS", []⟩ [("X-Init", "v")]
            (fun _ => (0 : Nat))).headers
  ∧ (hget (handleCors ({} : Config) ⟨"OPTIONS", []⟩ [("X-Init", "v")]
        (fun _ => (0 : Nat))).headers "X-Init").isSome := by
  have h := c4_preflight_headers ({} : Config) ⟨"OPTIONS", []⟩
    [("X-Init", "v")] (fun _ => (0 : Nat)) rfl
  exact ⟨h.1, h.2.2 "X-Init" (by decide)⟩

/-- The six header names the middleware may write. -/
def corsHeaderNames : List String :=
  ["Access-Control-Allow-Origin", "Access-Control-Allow-Credentials",
   "Access-Control-Allow-Methods", "Access-Control-Allow-Headers",
   "Access-Control-Max-Age", "Access-Control-Expose-Headers"]

/-- Claim C5: `apply` only adds or overwrites headers. Every header name
present on the response before the call is still present after it, and every
name that is (case-insensitively) none of the six CORS header names keeps its
exact pre-call value. -/
theorem c5_frame {α : Type} (config : Config) (request : Request)
    (resp : Headers) (next : Unit → α) (m : String) :
    ((hget resp m).isSome →
      (hget (handleCors config request resp next).headers m).isSome)
  ∧ ((∀ cn ∈ corsHeaderNames, lkey m ≠ lkey cn) →
      hget (handleCors config request resp next).headers m = hget resp m) := by
  constructor
  · intro hm
    rw [handleCors_headers]
    exact corsHeaders_isSome _ _ _ _ hm
  · intro h
    rw [handleCors_headers]
    exact corsHeaders_other _ _ _ _ (h _ (by simp [corsHeaderNames]))
      (h _ (by simp [corsHeaderNames])) (h _ (by simp [corsHeaderNames]))
      (h _ (by simp [corsHeaderNames])) (h _ (by simp [corsHeaderNames]))
      (h _ (by simp [corsHeaderNames]))

/-- Witness for C5: a pre-existing `X-Other` header survives a default-config
call with its exact value. -/
theorem c5_witness :
    (hget (handleCors (mkCors none) ⟨"GET", []⟩ [("X-Other", "42")]
        (fun _ => (0 : Nat))).headers "X-Other").isSome
  ∧ hget (handleCors (mkCors none) ⟨"GET", []⟩ [("X-Other", "42")]
        (fun _ => (0 : Nat))).headers "X-Other" = some "42" := by
  have h := c5_frame (mkCors none) ⟨"GET", []⟩ [("X-Other", "42")]
    (fun _ => (0 : Nat)) "X-Other"
  refine ⟨h.1 (by decide), ?_⟩
  exact (h.2 (by decide)).trans (by decide)

/-- Claim C6: `Access-Control-Allow-Methods` / `-Allow-Headers` /
`-Expose-Headers` are set to the `", "`-joined list in declared order iff the
corresponding list is present and non-empty, and `Access-Control-Max-Age` is
set verbatim iff `maxAge` is present and non-empty; otherwise each header is
left untouched (so absent when it was absent, never an empty string). -/
theorem c6_simple_headers {α : Type} (config : Config) (request : Request)
    (resp : Headers) (next : Unit → α) :
    (∀ vs, config.methods = some vs → vs ≠ [] →
      hget (handleCors config request resp next).headers
        "Access-Control-Allow-Methods" = some (String.intercalate ", " vs))
  ∧ ((config.methods = none ∨ config.methods = some []) →
      hget (handleCors config request resp next).headers
        "Access-Control-Allow-Methods"
        = hget resp "Access-Control-Allow-Methods")
  ∧ (∀ vs, config.headers = some vs → vs ≠ [] →
      hget (handleCors config request resp next).headers
        "Access-Control-Allow-Headers" = some (String.intercalate ", " vs))
  ∧ ((config.headers = none ∨ config.headers = some []) →
      hget (handleCors config request resp next).headers
        "Access-Control-Allow-Headers"
        = hget resp "Access-Control-Allow-Headers")
  ∧ (∀ s, config.maxAge = some s → s ≠ "" →
      hget (handleCors config request resp next).headers
        "Access-Control-Max-Age" = some s)
  ∧ ((config.maxAge = none ∨ config.maxAge = some "") →
      hget (handleCors config request resp next).headers
        "Access-Control-Max-Age" = hget resp "Access-Control-Max-Age")
  ∧ (∀ vs, config.exposeHeaders = some vs → vs ≠ [] →
      hget (handleCors config request resp next).headers
        "Access-Control-Expose-Headers" = some (String.intercalate ", " vs))
  ∧ ((config.exposeHeaders = none ∨ config.exposeHeaders = some []) →
      hget (handleCors config request resp next).headers
        "Access-Control-Expose-Headers"
        = hget resp "Access-Control-Expose-Headers") := by
  refine ⟨?_, ?_, ?_, ?_, ?_, ?_, ?_, ?_⟩
  · intro vs hv hne
    rw [handleCors_headers, corsHeaders_methods, hv]
    dsimp only
    rw [if_pos (List.length_pos.mpr hne)]
  · rintro (h | h) <;>
      · rw [handleCors_headers, corsHeaders_methods, h]
        try simp
  · intro vs hv hne
    rw [handleCors_headers, corsHeaders_hdrs, hv]
    dsimp only
    rw [if_pos (List.length_pos.mpr hne)]
  · rintro (h | h) <;>
      · rw [handleCors_headers, corsHeaders_hdrs, h]
        try simp
  · intro s hv hne
    rw [handleCors_headers, corsHeaders_maxage, hv]
    dsimp only
    rw [if_neg hne]
  · rintro (h | h) <;>
      · rw [handleCors_headers, corsHeaders_maxage, h]
        try simp
  · intro vs hv hne
    rw [handleCors_headers, corsHeaders_expose, hv]
    dsimp only
    rw [if_pos (List.length_pos.mpr hne)]
  · rintro (h | h) <;>
      · rw [handleCors_headers, corsHeaders_expose, h]
        try simp

/-- Witness for C6: the default configuration joins the default methods and,
having an empty expose list, leaves `Access-Control-Expose-Headers` absent. -/
theorem c6_witness :
    hget (handleCors (mkCors none) ⟨"GET", []⟩ []
        (fun _ => (0 : Nat))).headers "Access-Control-Allow-Methods"
      = some "GET, POST, PUT, PATCH, DELETE, OPTIONS, TRACE"
  ∧ hget (handleCors (mkCors none) ⟨"GET", []⟩ []
        (fun _ => (0 : Nat))).headers "Access-Control-Expose-Headers"
      = none := by
  have h := c6_simple_headers (mkCors none) ⟨"GET", []⟩ []
    (fun _ => (0 : Nat))
  constructor
  · exact (h.1 ["GET", "POST", "PUT", "PATCH", "DELETE", "OPTIONS", "TRACE"]
      rfl (by decide)).trans (by decide)
  · exact (h.2.2.2.2.2.2.2 (Or.inr rfl)).trans (by decide)

/-- Claim C7: construction is a total shallow merge with the defaults — each
field supplied by the caller overrides exactly that field and each absent
field takes the documented default value (values are passed through without
validation). -/
theorem c7_construction :
    ((mkCors none).origin = some (OriginShape.str "*")
  ∧ (mkCors none).methods
      = some ["GET", "POST", "PUT", "PATCH", "DELETE", "OPTIONS", "TRACE"]
  ∧ (mkCors none).headers = some ["Content-Type", "Authorization"]
  ∧ (mkCors none).maxAge = some "86400"
  ∧ (mkCors none).credentials = some false
  ∧ (mkCors none).exposeHeaders = some [])
  ∧ (∀ c v, c.origin = some v → (mkCors (some c)).origin = some v)
  ∧ (∀ c : Config, c.origin = none →
      (mkCors (some c)).origin = some (OriginShape.str "*"))
  ∧ (∀ c v, c.methods = some v → (mkCors (some c)).methods = some v)
  ∧ (∀ c : Config, c.methods = none → (mkCors (some c)).methods
      = some ["GET", "POST", "PUT", "PATCH", "DELETE", "OPTIONS", "TRACE"])
  ∧ (∀ c v, c.headers = some v → (mkCors (some c)).headers = some v)
  ∧ (∀ c : Config, c.headers = none →
      (mkCors (some c)).headers = some ["Content-Type", "Authorization"])
  ∧ (∀ c v, c.maxAge = some v → (mkCors (some c)).maxAge = some v)
  ∧ (∀ c : Config, c.maxAge = none →
      (mkCors (some c)).maxAge = some "86400")
  ∧ (∀ c v, c.credentials = some v → (mkCors (some c)).credentials = some v)
  ∧ (∀ c : Config, c.credentials = none →
      (mkCors (some c)).credentials = some false)
  ∧ (∀ c v, c.exposeHeaders = some v →
      (mkCors (some c)).exposeHeaders = some v)
  ∧ (∀ c : Config, c.exposeHeaders = none →
      (mkCors (some c)).exposeHeaders = some []) := by
  refine ⟨⟨rfl, rfl, rfl, rfl, rfl, rfl⟩, ?_, ?_, ?_, ?_, ?_, ?_, ?_, ?_,
    ?_, ?_, ?_, ?_⟩ <;>
    · intro c
      intros
      simp_all [mkCors, Option.or, initialiseDefaultConfig]

/-- Witness for C7: defaults hold; supplying a (malformed, unvalidated)
`maxAge` overrides only that field, leaving sibling fields at their
defaults. -/
theorem c7_witness :
    (mkCors none).maxAge = some "86400"
  ∧ (mkCors (some { maxAge := some "-5" })).maxAge = some "-5"
  ∧ (mkCors (some { maxAge := some "-5" })).credentials = some false := by
  have h := c7_construction
  exact ⟨h.1.2.2.2.1, h.2.2.2.2.2.2.2.1 { maxAge := some "-5" } "-5" rfl,
    h.2.2.2.2.2.2.2.2.2.2.1 { maxAge := some "-5" } rfl⟩

/-- Claim C8: when the configured origin is a predicate, one `apply` call
invokes it at most once, and never invokes it when the request has no
`Origin` header. -/
theorem c8_pred_called_once {α : Type} (config : Config) (p : String → Bool)
    (request : Request) (resp : Headers) (next : Unit → α)
    (h : config.origin = some (OriginShape.pred p)) :
    (handleCors config request resp next).predCalls ≤ 1
  ∧ (hget request.headers "Origin" = none →
      (handleCors config request resp next).predCalls = 0) := by
  constructor
  · rw [handleCors_predCalls]
    unfold getAllowedOrigin
    rw [h]
    by_cases hf : strFalsy (hget request.headers "Origin") = true
    · simp [hf]
    · by_cases hp : p ((hget request.headers "Origin").getD "") = true <;>
        simp [hf, hp]
  · intro ho
    rw [handleCors_predCalls]
    unfold getAllowedOrigin
    rw [h, ho]
    simp [strFalsy]

/-- A predicate configuration used in witnesses. -/
def cfgPred : Config := { origin := some (OriginShape.pred (fun s => s == "x")) }

/-- Witness for C8: with a predicate origin and no `Origin` header, the
predicate is not invoked. -/
theorem c8_witness :
    (handleCors cfgPred ⟨"GET", []⟩ [] (fun _ => (0 : Nat))).predCalls ≤ 1
  ∧ (handleCors cfgPred ⟨"GET", []⟩ [] (fun _ => (0 : Nat))).predCalls
      = 0 := by
  have h := c8_pred_called_once cfgPred (fun s => s == "x") ⟨"GET", []⟩ []
    (fun _ => (0 : Nat)) rfl
  exact ⟨h.1, h.2 rfl⟩

/-- Claim C9: with a set-of-strings or predicate origin, a request whose
`Origin` header is present but empty behaves exactly like a request with no
`Origin` header — the whole call outcome is identical, no allowed origin is
resolved, `Access-Control-Allow-Origin` is left unchanged, and the predicate
is not invoked — because the implementation tests `!requestOrigin`
(falsiness), not absence. -/
theorem c9_empty_origin {α : Type} (config : Config) (method : String)
    (h1 h2 : Headers) (resp : Headers) (next : Unit → α)
    (hor : (∃ l, config.origin = some (OriginShape.list l))
         ∨ (∃ p, config.origin = some (OriginShape.pred p)))
    (he : hget h1 "Origin" = some "") (ha : hget h2 "Origin" = none) :
    handleCors config ⟨method, h1⟩ resp next
      = handleCors config ⟨method, h2⟩ resp next
  ∧ (getAllowedOrigin config (some "")).1 = none
  ∧ hget (handleCors config ⟨method, h1⟩ resp next).headers
      "Access-Control-Allow-Origin" = hget resp "Access-Control-Allow-Origin"
  ∧ (handleCors config ⟨method, h1⟩ resp next).predCalls = 0 := by
  have hnone : (getAllowedOrigin config (some "")).1 = none := by
    cases hor with
    | inl hl =>
        obtain ⟨l, hl⟩ := hl
        simp [getAllowedOrigin, hl, strFalsy]
    | inr hp =>
        obtain ⟨p, hp⟩ := hp
        simp [getAllowedOrigin, hp, strFalsy]
  refine ⟨?_, hnone, ?_, ?_⟩
  · have hch : corsHeaders config (some "") resp
        = corsHeaders config none resp := by
      unfold corsHeaders
      rw [getAllowedOrigin_empty_origin]
    unfold handleCors
    dsimp only
    rw [he, ha, hch]
  · rw [handleCors_headers]
    dsimp only
    rw [he, corsHeaders_origin, hnone]
  · rw [handleCors_predCalls]
    dsimp only
    rw [he]
    cases hor with
    | inl hl =>
        obtain ⟨l, hl⟩ := hl
        simp [getAllowedOrigin, hl, strFalsy]
    | inr hp =>
        obtain ⟨p, hp⟩ := hp
        simp [getAllowedOrigin, hp, strFalsy]

/-- An allow-list configuration used in witnesses. -/
def cfgList : Config := { origin := some (OriginShape.list ["https://a.com"]) }

/-- Witness for C9: for the allow-list configuration, an `Origin: ""` request
and an `Origin`-less request yield identical outcomes with no allowed origin
and zero predicate calls. -/
theorem c9_witness :
    handleCors cfgList ⟨"GET", [("Origin", "")]⟩ [] (fun _ => (0 : Nat))
      = handleCors cfgList ⟨"GET", []⟩ [] (fun _ => (0 : Nat))
  ∧ (getAllowedOrigin cfgList (some "")).1 = none
  ∧ hget (handleCors cfgList ⟨"GET", [("Origin", "")]⟩ []
      (fun _ => (0 : Nat))).headers "Access-Control-Allow-Origin" = none
  ∧ (handleCors cfgList ⟨"GET", [("Origin", "")]⟩ []
      (fun _ => (0 : Nat))).predCalls = 0 := by
  have h := c9_empty_origin cfgList "GET" [("Origin", "")] [] []
    (fun _ => (0 : Nat)) (Or.inl ⟨["https://a.com"], rfl⟩) (by decide)
    (by decide)
  exact ⟨h.1, h.2.1, h.2.2.1, h.2.2.2⟩

/-- Claim C10: the middleware returned by the `handle` getter and by the
`cors()` helper factory behaves identically to calling `handleCors` directly
on an instance constructed from the same configuration — the bound form adds
no behaviour. -/
theorem c10_handle_equiv {α : Type} (config : Option Config) (cfg : Config)
    (request : Request) (resp : Headers) (next : Unit → α) :
    cors config request resp next
      = handleCors (mkCors config) request resp next
  ∧ handle cfg request resp next = handleCors cfg request resp next :=
  ⟨rfl, rfl⟩

end Raptor
